import Mathlib

/-!
Verification development for the `agent-config-manager` repository
(`src/main.go`), a single-file Go CLI that manages one JSON configuration
document.  The Go structs are embedded as Lean structures, the `switch`
dispatch of `getValue` / `setValue` as if-then-else chains on the key
string, `fmt.Sscanf` with `%f` / `%d` as explicit token scanners, and
`encoding/json` marshalling as functions into a small JSON value type.

Modelling conventions:
* Go `float64` fields (`daily_limit`, `alert_threshold`) are modelled as
  exact rationals (`Rat`); `float64` rounding of a stored decimal value is
  below this abstraction, and no claim depends on it.
* `fmt.Sscanf "%f"` is modelled in two phases mirroring `fmt/scan.go`:
  `floatToken` implements the scanner's token grammar (NaN/Inf checks with
  partial fall-through, sign, `0x` hexadecimal mode, underscore digit
  separators, one period, one exponent clause over `eEpP`), and
  `convertFloat` implements the conversion: NaN/Inf tokens and tokens with
  a hex prefix or `p`/`P` exponent are classified into explicit scanner
  result classes (`FloatScan.nonFinite` / `FloatScan.binExp`) whose stored
  `float64` is outside the `Rat` model — every theorem about the stored
  value hypothesises the other two classes — while decimal tokens go
  through `strconv.ParseFloat`'s literal grammar (underscore placement per
  `underscoreOK`) with its range errors at the exact `float64`
  overflow/underflow rounding boundaries.  Leading spaces use the `fmt`
  scanner's Unicode space table; a leading newline is a scan error.
* Go `int` is modelled as `Int`; `fmt.Sscanf "%d"` scans sign plus the
  `%d` digit set (decimal digits and underscores) and validates as
  `strconv.ParseInt(tok, 10, 64)` does: underscores rejected (they need
  base 0) and the signed 64-bit range enforced.
* The JSON text on disk is abstracted to a JSON value (`Json` below):
  `json.MarshalIndent` becomes `marshalConfig : AgentConfig → Json` and
  `json.Unmarshal` becomes `unmarshalConfig : Json → Option AgentConfig`.
  Indentation, key ordering on output, duplicate keys and case-insensitive
  field matching (which never arise on documents the program itself wrote)
  are below this abstraction.
* The config file is modelled as `Option Json` (absent, or holding a JSON
  document); commands that touch the file are state transformers on it.
-/

/-- Error kinds of the program (spec section 7): `UnknownKey` from
`getValue`/`setValue`, `NotFound` and `Malformed` from `loadConfig`. -/
inductive ConfigError where
  | unknownKey
  | notFound
  | malformed
  deriving DecidableEq, Repr

/-- Go struct `AgentInfo` (src/main.go lines 22-28). -/
structure AgentInfo where
  name : String
  id : String
  erc8004ID : Int
  website : String
  github : String
  deriving DecidableEq, Repr

/-- Go struct `WalletConfig` (src/main.go lines 30-35); `float64` fields
modelled as `Rat`. -/
structure WalletConfig where
  address : String
  networks : List String
  dailyLimit : Rat
  alertThreshold : Rat
  deriving DecidableEq, Repr

/-- Go struct `SecurityConfig` (src/main.go lines 37-44). -/
structure SecurityConfig where
  firewallEnabled : Bool
  honeypotEnabled : Bool
  promptGuardEnabled : Bool
  simulatorEnabled : Bool
  whitelistedAddresses : List String
  blacklistedAddresses : List String
  deriving DecidableEq, Repr

/-- Go struct `APIKeysConfig` (src/main.go lines 46-52); all five fields
carry `omitempty` in their JSON tags. -/
structure APIKeysConfig where
  etherscan : String
  basescan : String
  openAI : String
  anthropic : String
  discord : String
  deriving DecidableEq, Repr

/-- Go struct `MonitoringConfig` (src/main.go lines 54-59); `WebhookURL`
carries `omitempty`. -/
structure MonitoringConfig where
  dashboardEnabled : Bool
  dashboardPort : Int
  webhookURL : String
  checkInterval : Int
  deriving DecidableEq, Repr

/-- Go struct `AgentConfig` (src/main.go lines 13-20), the unified
configuration document. -/
structure AgentConfig where
  version : String
  agent : AgentInfo
  wallet : WalletConfig
  security : SecurityConfig
  apiKeys : APIKeysConfig
  monitoring : MonitoringConfig
  deriving DecidableEq, Repr

/-- Default document built by `initConfig` (src/main.go lines 132-161).
`APIKeys: APIKeysConfig{}` is the Go zero value: five empty strings;
the omitted `WebhookURL` is likewise the zero value `""`. -/
def defaultConfig : AgentConfig where
  version := "0.1.0"
  agent :=
    { name := "Arithmos"
      id := "arithmos-quillsworth"
      erc8004ID := 1941
      website := "https://arithmos.dev"
      github := "https://github.com/arithmosquillsworth" }
  wallet :=
    { address := "0x120e011fB8a12bfcB61e5c1d751C26A5D33Aae91"
      networks := ["ethereum", "base"]
      dailyLimit := 1/2
      alertThreshold := 1/10 }
  security :=
    { firewallEnabled := true
      honeypotEnabled := true
      promptGuardEnabled := true
      simulatorEnabled := true
      whitelistedAddresses := []
      blacklistedAddresses := [] }
  apiKeys :=
    { etherscan := ""
      basescan := ""
      openAI := ""
      anthropic := ""
      discord := "" }
  monitoring :=
    { dashboardEnabled := true
      dashboardPort := 8080
      webhookURL := ""
      checkInterval := 5 }

/-- Printed value of a struct field, as handed to `fmt.Println` by
`getValue`: the field kept in its own type (string, int, float, bool). -/
inductive GoValue where
  | str (s : String)
  | int (n : Int)
  | float (q : Rat)
  | bool (b : Bool)
  deriving DecidableEq, Repr

/-- Go function `getValue` (src/main.go lines 281-307) minus the I/O shell:
the `switch key` dispatch, returning the addressed field on a supported
key and `UnknownKey` otherwise (the Go code prints the error and exits
non-zero). -/
def getValue (config : AgentConfig) (key : String) : Except ConfigError GoValue :=
  if key = "agent.name" then .ok (.str config.agent.name)
  else if key = "agent.id" then .ok (.str config.agent.id)
  else if key = "agent.erc8004_id" then .ok (.int config.agent.erc8004ID)
  else if key = "wallet.address" then .ok (.str config.wallet.address)
  else if key = "wallet.daily_limit" then .ok (.float config.wallet.dailyLimit)
  else if key = "wallet.alert_threshold" then .ok (.float config.wallet.alertThreshold)
  else if key = "security.firewall_enabled" then .ok (.bool config.security.firewallEnabled)
  else if key = "security.honeypot_enabled" then .ok (.bool config.security.honeypotEnabled)
  else if key = "monitoring.dashboard_port" then .ok (.int config.monitoring.dashboardPort)
  else .error .unknownKey

/-- Space characters of the `fmt` scanner's space table (`space` in
`fmt/scan.go`): the ranges 0009-000D, 0020, 0085, 00A0, 2000-200A,
2028-2029, 202F, 205F, 3000.  `SkipSpace` skips these before a
`%f`/`%d` verb; the newline inside the first range is special-cased (an
error for `Sscanf`) and handled in `skipSpaces`. -/
def isScanSpace (ch : Char) : Bool :=
  let n := ch.toNat
  (0x0009 ≤ n && n ≤ 0x000D) || n = 0x0020 || n = 0x0085 || n = 0x00A0 ||
  (0x2000 ≤ n && n ≤ 0x200A) || n = 0x2028 || n = 0x2029 || n = 0x202F ||
  n = 0x205F || n = 0x3000

/-- Model of `ss.SkipSpace` as `Sscanf` runs it (newlines are not
spaces there): drop leading scanner spaces; reaching a newline — also as
the `\r\n` pair, whose `\r` is skipped first — is "unexpected newline",
a scan error, reported as `none`, so the target variable keeps zero. -/
def skipSpaces : List Char → Option (List Char)
  | [] => some []
  | ch :: rest =>
    if ch = '\n' then none
    else if isScanSpace ch then skipSpaces rest
    else some (ch :: rest)

/-- Consume an optional leading sign; returns whether the sign was `-`
and the remaining input. -/
def scanSign : List Char → Bool × List Char
  | '+' :: rest => (false, rest)
  | '-' :: rest => (true, rest)
  | cs => (false, cs)

/-- Split off the maximal run of leading decimal digits. -/
def takeDigits : List Char → List Char × List Char
  | [] => ([], [])
  | ch :: rest =>
    if ch.isDigit then
      let (ds, r) := takeDigits rest
      (ch :: ds, r)
    else ([], ch :: rest)

/-- Numeric value of a decimal digit run. -/
def digitsVal (ds : List Char) : Nat :=
  ds.foldl (fun n ch => 10 * n + (ch.toNat - 48)) 0

/-- One `ss.accept` step: consume the head character when it belongs to
the given set, keeping the consumed character for the token buffer. -/
def acceptCh (chset : String) (cs : List Char) : Option (Char × List Char) :=
  match cs with
  | ch :: rest => if chset.data.contains ch then some (ch, rest) else none
  | [] => none

/-- The `for s.accept(digits)` loop: split off the maximal run of
characters from the set. -/
def takeWhileIn (chset : String) : List Char → List Char × List Char
  | [] => ([], [])
  | ch :: rest =>
    if chset.data.contains ch then
      let (ds, r) := takeWhileIn chset rest
      (ch :: ds, r)
    else ([], ch :: rest)

/-- Outcome of the `%f` scan.  `err` is a failed scan: `Sscanf` returns
an error that `setValue` ignores, and the zero-initialised target
variable stays 0.  `val q` is a successful scan storing the finite value
`q` (exact decimal semantics; `float64` rounding is below the
abstraction).  `nonFinite` is a successful scan of a NaN/Inf token,
storing a non-finite `float64` that `Rat` cannot hold.  `binExp` is a
token with a hexadecimal prefix or a binary (`p`/`P`) exponent, whose
outcome goes through the `fmt`/`strconv` power-of-two path not modelled
here.  The last two classes are scoped out of the value model: no
theorem below claims anything about the stored value on them. -/
inductive FloatScan where
  | err
  | val (q : Rat)
  | nonFinite
  | binExp
  deriving DecidableEq, Repr

/-- The number part of `ss.floatToken` (`fmt/scan.go`): the `0x`/`0X`
switch to hexadecimal digits with a `pP`-only exponent, a run of digits
(underscores included), one optional period with fraction digits, and
one optional exponent (`eEpP` in decimal mode) with optional sign and
digits.  `buf` carries characters already consumed by the NaN/Inf/sign
checks, exactly as Go's token buffer does. -/
def floatTokenNumber (buf : List Char) (cs : List Char) : List Char :=
  let (hex, buf, cs) :=
    match acceptCh "0" cs with
    | some (c0, cs0) =>
      match acceptCh "xX" cs0 with
      | some (cx, cs1) => (true, buf ++ [c0, cx], cs1)
      | none => (false, buf ++ [c0], cs0)
    | none => (false, buf, cs)
  let digits := if hex then "0123456789aAbBcCdDeEfF_" else "0123456789_"
  let expChars := if hex then "pP" else "eEpP"
  let (ds, cs) := takeWhileIn digits cs
  let buf := buf ++ ds
  let (buf, cs) :=
    match acceptCh "." cs with
    | some (c, rest) =>
      let (fs, r2) := takeWhileIn digits rest
      (buf ++ c :: fs, r2)
    | none => (buf, cs)
  match acceptCh expChars cs with
  | some (ce, rest) =>
    let (buf2, rest2) :=
      match acceptCh "+-" rest with
      | some (c, r) => (buf ++ [ce, c], r)
      | none => (buf ++ [ce], rest)
    let (es, _) := takeWhileIn digits rest2
    buf2 ++ es
  | none => buf

/-- The sign and Inf checks of `ss.floatToken`: an optional sign, then a
case-insensitive three-letter `inf` check that returns the token at once
on success and falls through into the number part — with the consumed
letters left in the token — on partial failure, as Go's `accept` chain
does. -/
def floatTokenSigned (buf : List Char) (cs : List Char) : List Char :=
  let (buf, cs) :=
    match acceptCh "+-" cs with
    | some (c, rest) => (buf ++ [c], rest)
    | none => (buf, cs)
  match acceptCh "iI" cs with
  | some (c1, cs1) =>
    match acceptCh "nN" cs1 with
    | some (c2, cs2) =>
      match acceptCh "fF" cs2 with
      | some (c3, _) => buf ++ [c1, c2, c3]
      | none => floatTokenNumber (buf ++ [c1, c2]) cs2
    | none => floatTokenNumber (buf ++ [c1]) cs1
  | none => floatTokenNumber buf cs

/-- Go's `ss.floatToken`: the case-insensitive NaN check first (partial
failure falls through with the consumed letters kept), then sign, the
Inf check, and the number part. -/
def floatToken (cs : List Char) : List Char :=
  match acceptCh "nN" cs with
  | some (c1, cs1) =>
    match acceptCh "aA" cs1 with
    | some (c2, cs2) =>
      match acceptCh "nN" cs2 with
      | some (c3, _) => [c1, c2, c3]
      | none => floatTokenSigned [c1, c2] cs2
    | none => floatTokenSigned [c1] cs1
  | none => floatTokenSigned [] cs

/-- The loop of `strconv`'s `underscoreOK`; `saw` tracks the class of
the previous character exactly as in Go: `^` start of number, `0` digit
or base prefix, `_` underscore, `!` anything else. -/
def underscoreOKAux (hex : Bool) (saw : Char) : List Char → Bool
  | [] => saw ≠ '_'
  | c :: rest =>
    if ('0' ≤ c && c ≤ '9') ||
        (hex && (('a' ≤ c && c ≤ 'f') || ('A' ≤ c && c ≤ 'F'))) then
      underscoreOKAux hex '0' rest
    else if c = '_' then
      if saw = '0' then underscoreOKAux hex '_' rest else false
    else if saw = '_' then false
    else underscoreOKAux hex '!' rest

/-- Go's `strconv` `underscoreOK`: underscores must sit between
successive digits, or between a base prefix and a digit; an optional
sign and base prefix are skipped first. -/
def underscoreOK (tok : List Char) : Bool :=
  let s :=
    match tok with
    | c :: rest => if c = '+' || c = '-' then rest else tok
    | [] => []
  match s with
  | '0' :: c :: rest =>
    if c = 'b' || c = 'B' || c = 'o' || c = 'O' || c = 'x' || c = 'X' then
      underscoreOKAux (c = 'x' || c = 'X') '0' rest
    else underscoreOKAux false '^' s
  | _ => underscoreOKAux false '^' s

/-- Exact value of a validated decimal literal: sign, integer digits,
fraction digits and a signed decimal exponent. -/
def decValue (neg : Bool) (ipart fpart : List Char) (e : Int) : Rat :=
  let mant : Rat :=
    (digitsVal ipart : Rat) + (digitsVal fpart : Rat) / ((10 : Rat) ^ fpart.length)
  let v := mant * (10 : Rat) ^ e
  if neg then -v else v

/-- Model of `strconv.ParseFloat` syntax on a decimal token (no hex
prefix, no binary exponent): validate underscore placement
(`underscoreOK`), strip the underscores, and demand the decimal literal
grammar — optional sign, a mantissa with at least one digit and at most
one period, and an optional `e`/`E` exponent with optional sign and at
least one digit — consuming the whole token.  Returns the exact value;
the caller applies the `float64` range check. -/
def parseFloatDec (tok : List Char) : Option Rat :=
  if !underscoreOK tok then none
  else
    let cs := tok.filter (fun c => c ≠ '_')
    let (neg, cs) := scanSign cs
    let (ip, cs) := takeDigits cs
    let (fp, cs) :=
      match cs with
      | '.' :: r => takeDigits r
      | r => ([], r)
    if ip.isEmpty && fp.isEmpty then none
    else
      match cs with
      | [] => some (decValue neg ip fp 0)
      | e :: rest =>
        if e = 'e' || e = 'E' then
          let (eneg, rest) := scanSign rest
          let (ep, rest2) := takeDigits rest
          if ep.isEmpty || !rest2.isEmpty then none
          else
            some (decValue neg ip fp
              (if eneg then -(digitsVal ep : Int) else (digitsVal ep : Int)))
        else none

/-- The `strconv.ParseFloat` range check on the exact value: a value
that rounds to ±Inf (magnitude at least `2^1024 - 2^970`, the
round-to-even overflow boundary of `float64`) or a nonzero value that
rounds to zero (magnitude at most `2^-1075`) gets a range error, which
fails the `fmt` scan and leaves the variable zero; everything else is
stored. -/
def floatRange (q : Rat) : FloatScan :=
  if (2 : Rat) ^ 1024 - 2 ^ 970 ≤ |q| then .err
  else if q ≠ 0 ∧ |q| * 2 ^ 1075 ≤ 1 then .err
  else .val q

/-- NaN token: the three-letter case-insensitive `nan` (the only NaN
form `floatToken` can emit). -/
def isNaNTok (tok : List Char) : Bool :=
  match tok with
  | [a, b, c] =>
    (a = 'n' || a = 'N') && (b = 'a' || b = 'A') && (c = 'n' || c = 'N')
  | _ => false

/-- Inf token: an optional sign and the three-letter case-insensitive
`inf` (the only Inf form `floatToken` can emit). -/
def isInfTok (tok : List Char) : Bool :=
  let core :=
    match tok with
    | c :: rest => if c = '+' || c = '-' then rest else tok
    | [] => []
  match core with
  | [a, b, c] =>
    (a = 'i' || a = 'I') && (b = 'n' || b = 'N') && (c = 'f' || c = 'F')
  | _ => false

/-- Go's `ss.convertFloat` on the scanned token: NaN/Inf tokens parse to
non-finite values (class `nonFinite`); tokens with a hex prefix or a
`p`/`P` exponent take the power-of-two handling (class `binExp`); every
other token goes through `strconv.ParseFloat`'s decimal grammar and
range check, a parse error failing the scan. -/
def convertFloat (tok : List Char) : FloatScan :=
  if isNaNTok tok || isInfTok tok then .nonFinite
  else if tok.any (fun c => c = 'x' || c = 'X' || c = 'p' || c = 'P') then .binExp
  else
    match parseFloatDec tok with
    | none => .err
    | some q => floatRange q

/-- Model of `fmt.Sscanf(value, "%f", &x)` (used at src/main.go lines
325 and 329): skip the scanner spaces (a leading newline fails the
scan), take `floatToken`, convert it with `convertFloat`. -/
def scanFloat (value : String) : FloatScan :=
  match skipSpaces value.data with
  | none => .err
  | some cs => convertFloat (floatToken cs)

/-- The `float64` variable handed to `fmt.Sscanf("%f")` by `setValue`:
zero-initialised, overwritten only by a successful scan.  On the
`nonFinite` and `binExp` classes the program stores a value this `Rat`
model cannot commit to (see `FloatScan`); the 0 returned there is a
placeholder no theorem relies on. -/
def sscanfFloat (value : String) : Rat :=
  match scanFloat value with
  | .err => 0
  | .val q => q
  | .nonFinite => 0
  | .binExp => 0

/-- Model of `fmt.Sscanf(value, "%d", &x)` (used at src/main.go line
335): skip the scanner spaces (a leading newline fails the scan),
consume an optional sign and the maximal run of the `%d` digit set —
decimal digits and underscores — then validate as
`strconv.ParseInt(tok, 10, 64)` does: at least one character, no
underscores (`ParseInt` allows them only with base 0), and a value
within the signed 64-bit range.  `none` means the scan failed and the
variable keeps its zero value. -/
def scanInt (value : String) : Option Int :=
  match skipSpaces value.data with
  | none => none
  | some cs =>
    let (neg, cs) := scanSign cs
    let (ds, _) := takeWhileIn "0123456789_" cs
    if ds.isEmpty then none
    else if ds.contains '_' then none
    else
      let n : Int := if neg then -(digitsVal ds : Int) else (digitsVal ds : Int)
      if n < -(2 ^ 63) || 2 ^ 63 - 1 < n then none else some n

/-- Go function `setValue` (src/main.go lines 309-344) minus the I/O
shell: the `switch key` dispatch returning the mutated document on a
supported key and `UnknownKey` otherwise.  For the two float keys and the
int key the Go code declares a zero-initialised variable, runs
`fmt.Sscanf` ignoring its error, and stores the variable: `sscanfFloat`
for the float keys and `(scanInt value).getD 0` for the int key.  On success the Go caller persists the
document via `saveConfig` and prints a success line. -/
def setValue (config : AgentConfig) (key value : String) : Except ConfigError AgentConfig :=
  if key = "api_keys.etherscan" then
    .ok { config with apiKeys := { config.apiKeys with etherscan := value } }
  else if key = "api_keys.basescan" then
    .ok { config with apiKeys := { config.apiKeys with basescan := value } }
  else if key = "api_keys.openai" then
    .ok { config with apiKeys := { config.apiKeys with openAI := value } }
  else if key = "api_keys.anthropic" then
    .ok { config with apiKeys := { config.apiKeys with anthropic := value } }
  else if key = "api_keys.discord" then
    .ok { config with apiKeys := { config.apiKeys with discord := value } }
  else if key = "wallet.daily_limit" then
    .ok { config with wallet := { config.wallet with dailyLimit := sscanfFloat value } }
  else if key = "wallet.alert_threshold" then
    .ok { config with wallet := { config.wallet with alertThreshold := sscanfFloat value } }
  else if key = "monitoring.webhook_url" then
    .ok { config with monitoring := { config.monitoring with webhookURL := value } }
  else if key = "monitoring.check_interval" then
    .ok { config with monitoring := { config.monitoring with checkInterval := (scanInt value).getD 0 } }
  else .error .unknownKey

/-- Frame gadget for the `set` claims: overwrite the field addressed by a
settable key with a fixed blank value (`""` or `0`), leaving every other
field alone.  Two documents that agree after clearing key `k` agree on
every field other than the one `k` addresses. -/
def clearSetField (key : String) (config : AgentConfig) : AgentConfig :=
  if key = "api_keys.etherscan" then
    { config with apiKeys := { config.apiKeys with etherscan := "" } }
  else if key = "api_keys.basescan" then
    { config with apiKeys := { config.apiKeys with basescan := "" } }
  else if key = "api_keys.openai" then
    { config with apiKeys := { config.apiKeys with openAI := "" } }
  else if key = "api_keys.anthropic" then
    { config with apiKeys := { config.apiKeys with anthropic := "" } }
  else if key = "api_keys.discord" then
    { config with apiKeys := { config.apiKeys with discord := "" } }
  else if key = "wallet.daily_limit" then
    { config with wallet := { config.wallet with dailyLimit := 0 } }
  else if key = "wallet.alert_threshold" then
    { config with wallet := { config.wallet with alertThreshold := 0 } }
  else if key = "monitoring.webhook_url" then
    { config with monitoring := { config.monitoring with webhookURL := "" } }
  else if key = "monitoring.check_interval" then
    { config with monitoring := { config.monitoring with checkInterval := 0 } }
  else config

/-- Go function `validateConfig` (src/main.go lines 346-386), the rule
evaluation part: the ordered list of issue strings appended by the five
checks. -/
def validateIssues (config : AgentConfig) : List String :=
  let issues : List String := []
  let issues := if config.wallet.address = "" then
    issues ++ ["❌ Wallet address not set"] else issues
  let issues := if config.wallet.dailyLimit ≤ 0 then
    issues ++ ["⚠️  Daily limit should be positive"] else issues
  let issues := if config.apiKeys.etherscan = "" then
    issues ++ ["⚠️  Etherscan API key not set (needed for monitoring)"] else issues
  let issues := if config.apiKeys.basescan = "" then
    issues ++ ["⚠️  Basescan API key not set (needed for monitoring)"] else issues
  let issues := if !config.security.firewallEnabled && !config.security.honeypotEnabled then
    issues ++ ["⚠️  All security features disabled"] else issues
  issues

/-- Result lines printed by `validateConfig` (src/main.go lines 377-385):
the valid banner when no issues were collected, otherwise every issue
followed by the count line. -/
def validateResult (config : AgentConfig) : List String :=
  let issues := validateIssues config
  if issues.length = 0 then ["✅ Configuration is valid!"]
  else issues ++ ["Found " ++ toString issues.length ++ " issue(s)"]

/-- Subset document written to `exports/wallet-monitor.json` by
`exportConfig` (src/main.go lines 397-404), as an association list in the
source literal's order. -/
def walletMonitorExport (config : AgentConfig) : List (String × GoValue) :=
  [("address", .str config.wallet.address),
   ("etherscan_key", .str config.apiKeys.etherscan),
   ("basescan_key", .str config.apiKeys.basescan),
   ("check_interval", .int config.monitoring.checkInterval),
   ("alert_threshold", .float config.wallet.alertThreshold),
   ("webhook_url", .str config.monitoring.webhookURL)]

/-- Subset document written to `exports/reputation-scanner.json` by
`exportConfig` (src/main.go lines 408-412). -/
def reputationScannerExport (config : AgentConfig) : List (String × GoValue) :=
  [("address", .str config.wallet.address),
   ("etherscan_key", .str config.apiKeys.etherscan),
   ("basescan_key", .str config.apiKeys.basescan)]

/-- Subset document written to `exports/security-dashboard.json` by
`exportConfig` (src/main.go lines 416-418). -/
def securityDashboardExport (config : AgentConfig) : List (String × GoValue) :=
  [("port", .int config.monitoring.dashboardPort)]

/-- Go function `exportConfig` (src/main.go lines 388-425) minus the
filesystem shell: the three subset documents it derives, keyed by the
file name each is written to. -/
def exportConfig (config : AgentConfig) : List (String × List (String × GoValue)) :=
  [("wallet-monitor.json", walletMonitorExport config),
   ("reputation-scanner.json", reputationScannerExport config),
   ("security-dashboard.json", securityDashboardExport config)]

/-- JSON values, the abstraction of the serialized document (objects as
association lists in write order). -/
inductive Json where
  | str (s : String)
  | num (q : Rat)
  | bool (b : Bool)
  | arr (xs : List Json)
  | obj (fields : List (String × Json))

/-- Field emitted under the `omitempty` convention: absent when the
string is empty, present otherwise. -/
def optStrField (key s : String) : List (String × Json) :=
  if s = "" then [] else [(key, Json.str s)]

/-- JSON object body for `AgentInfo`, in struct tag order. -/
def agentJson (a : AgentInfo) : List (String × Json) :=
  [("name", .str a.name),
   ("id", .str a.id),
   ("erc8004_id", .num (a.erc8004ID : Rat)),
   ("website", .str a.website),
   ("github", .str a.github)]

/-- JSON object body for `WalletConfig`, in struct tag order. -/
def walletJson (w : WalletConfig) : List (String × Json) :=
  [("address", .str w.address),
   ("networks", .arr (w.networks.map Json.str)),
   ("daily_limit", .num w.dailyLimit),
   ("alert_threshold", .num w.alertThreshold)]

/-- JSON object body for `SecurityConfig`, in struct tag order. -/
def securityJson (s : SecurityConfig) : List (String × Json) :=
  [("firewall_enabled", .bool s.firewallEnabled),
   ("honeypot_enabled", .bool s.honeypotEnabled),
   ("prompt_guard_enabled", .bool s.promptGuardEnabled),
   ("simulator_enabled", .bool s.simulatorEnabled),
   ("whitelisted_addresses", .arr (s.whitelistedAddresses.map Json.str)),
   ("blacklisted_addresses", .arr (s.blacklistedAddresses.map Json.str))]

/-- JSON object body for `APIKeysConfig`: all five fields carry
`omitempty`, so each is absent exactly when empty. -/
def apiKeysJson (k : APIKeysConfig) : List (String × Json) :=
  optStrField "etherscan" k.etherscan ++
  optStrField "basescan" k.basescan ++
  optStrField "openai" k.openAI ++
  optStrField "anthropic" k.anthropic ++
  optStrField "discord" k.discord

/-- JSON object body for `MonitoringConfig`; `webhook_url` carries
`omitempty`. -/
def monitoringJson (m : MonitoringConfig) : List (String × Json) :=
  [("dashboard_enabled", .bool m.dashboardEnabled),
   ("dashboard_port", .num (m.dashboardPort : Rat))] ++
  optStrField "webhook_url" m.webhookURL ++
  [("check_interval_minutes", .num (m.checkInterval : Rat))]

/-- Model of `json.MarshalIndent(config, ...)` inside `saveConfig`
(src/main.go line 196): the JSON value written to the config file. -/
def marshalConfig (config : AgentConfig) : Json :=
  .obj
    [("version", .str config.version),
     ("agent", .obj (agentJson config.agent)),
     ("wallet", .obj (walletJson config.wallet)),
     ("security", .obj (securityJson config.security)),
     ("api_keys", .obj (apiKeysJson config.apiKeys)),
     ("monitoring", .obj (monitoringJson config.monitoring))]

/-- Decode a string field as `json.Unmarshal` does: a missing key leaves
the Go zero value `""`, a string is taken verbatim, any other shape is a
type error. -/
def getStrD (fields : List (String × Json)) (key : String) : Option String :=
  match fields.lookup key with
  | none => some ""
  | some (.str s) => some s
  | some _ => none

/-- Decode a `float64` field: missing means the zero value `0`. -/
def getNumD (fields : List (String × Json)) (key : String) : Option Rat :=
  match fields.lookup key with
  | none => some 0
  | some (.num q) => some q
  | some _ => none

/-- Decode an `int` field: missing means `0`; a fractional number is a
type error, as in `json.Unmarshal`. -/
def getIntD (fields : List (String × Json)) (key : String) : Option Int :=
  match fields.lookup key with
  | none => some 0
  | some (.num q) => if q.den = 1 then some q.num else none
  | some _ => none

/-- Decode a `bool` field: missing means `false`. -/
def getBoolD (fields : List (String × Json)) (key : String) : Option Bool :=
  match fields.lookup key with
  | none => some false
  | some (.bool b) => some b
  | some _ => none

/-- Decode a JSON array whose elements must all be strings. -/
def decodeStrs : List Json → Option (List String)
  | [] => some []
  | .str s :: rest => (decodeStrs rest).map (s :: ·)
  | _ => none

/-- Decode a `[]string` field: missing means the zero (empty) slice. -/
def getStrsD (fields : List (String × Json)) (key : String) : Option (List String) :=
  match fields.lookup key with
  | none => some []
  | some (.arr xs) => decodeStrs xs
  | some _ => none

/-- Decode an embedded struct field: missing means the zero struct,
modelled as an empty field list handed to the section decoder. -/
def getObjD (fields : List (String × Json)) (key : String) : Option (List (String × Json)) :=
  match fields.lookup key with
  | none => some []
  | some (.obj o) => some o
  | some _ => none

/-- Decode `AgentInfo` from its object body. -/
def unmarshalAgent (o : List (String × Json)) : Option AgentInfo := do
  let name ← getStrD o "name"
  let id ← getStrD o "id"
  let erc ← getIntD o "erc8004_id"
  let website ← getStrD o "website"
  let github ← getStrD o "github"
  pure ⟨name, id, erc, website, github⟩

/-- Decode `WalletConfig` from its object body. -/
def unmarshalWallet (o : List (String × Json)) : Option WalletConfig := do
  let address ← getStrD o "address"
  let networks ← getStrsD o "networks"
  let dailyLimit ← getNumD o "daily_limit"
  let alertThreshold ← getNumD o "alert_threshold"
  pure ⟨address, networks, dailyLimit, alertThreshold⟩

/-- Decode `SecurityConfig` from its object body. -/
def unmarshalSecurity (o : List (String × Json)) : Option SecurityConfig := do
  let fw ← getBoolD o "firewall_enabled"
  let hp ← getBoolD o "honeypot_enabled"
  let pg ← getBoolD o "prompt_guard_enabled"
  let sim ← getBoolD o "simulator_enabled"
  let wl ← getStrsD o "whitelisted_addresses"
  let bl ← getStrsD o "blacklisted_addresses"
  pure ⟨fw, hp, pg, sim, wl, bl⟩

/-- Decode `APIKeysConfig` from its object body; a missing key reads back
as the empty string. -/
def unmarshalAPIKeys (o : List (String × Json)) : Option APIKeysConfig := do
  let e ← getStrD o "etherscan"
  let b ← getStrD o "basescan"
  let oa ← getStrD o "openai"
  let an ← getStrD o "anthropic"
  let d ← getStrD o "discord"
  pure ⟨e, b, oa, an, d⟩

/-- Decode `MonitoringConfig` from its object body; a missing
`webhook_url` reads back as the empty string. -/
def unmarshalMonitoring (o : List (String × Json)) : Option MonitoringConfig := do
  let de ← getBoolD o "dashboard_enabled"
  let dp ← getIntD o "dashboard_port"
  let wu ← getStrD o "webhook_url"
  let ci ← getIntD o "check_interval_minutes"
  pure ⟨de, dp, wu, ci⟩

/-- Model of `json.Unmarshal(data, &config)` inside `loadConfig`
(src/main.go line 185): decode the document shape, `none` on a type
mismatch (the Go code then reports `Malformed` and exits non-zero). -/
def unmarshalConfig : Json → Option AgentConfig
  | .obj fields => do
    let version ← getStrD fields "version"
    let agent ← getObjD fields "agent" >>= unmarshalAgent
    let wallet ← getObjD fields "wallet" >>= unmarshalWallet
    let security ← getObjD fields "security" >>= unmarshalSecurity
    let apiKeys ← getObjD fields "api_keys" >>= unmarshalAPIKeys
    let monitoring ← getObjD fields "monitoring" >>= unmarshalMonitoring
    pure ⟨version, agent, wallet, security, apiKeys, monitoring⟩
  | _ => none

/-- Go function `loadConfig` (src/main.go lines 174-191) over the
file-as-state abstraction: `NotFound` when the file is absent,
`Malformed` when it does not decode, otherwise the document. -/
def loadConfig (file : Option Json) : Except ConfigError AgentConfig :=
  match file with
  | none => .error .notFound
  | some j =>
    match unmarshalConfig j with
    | none => .error .malformed
    | some config => .ok config

/-- Go function `saveConfig` (src/main.go lines 193-207) over the
file-as-state abstraction: overwrite the file with the marshalled
document. -/
def saveConfig (config : AgentConfig) (_file : Option Json) : Option Json :=
  some (marshalConfig config)

/-- Outcome reported by `initConfig`. -/
inductive InitOutcome where
  | created
  | alreadyExists
  deriving DecidableEq, Repr

/-- Go function `initConfig` (src/main.go lines 117-172) over the
file-as-state abstraction: when the file exists, report so and leave it
untouched; otherwise build the default document and save it. -/
def initConfig (file : Option Json) : Option Json × InitOutcome :=
  match file with
  | some j => (some j, .alreadyExists)
  | none => (saveConfig defaultConfig none, .created)

/-- Go function `validateConfig` (src/main.go lines 346-386) over the
file-as-state abstraction: load, evaluate the rules, print.  Returns the
file state after the command, the process exit status, and the result
lines.  The load failures exit non-zero; the validation itself always
exits zero and never writes. -/
def runValidate (file : Option Json) : Option Json × Nat × List String :=
  match loadConfig file with
  | .error _ => (file, 1, [])
  | .ok config => (file, 0, validateResult config)

instance {ε α : Type _} [DecidableEq ε] [DecidableEq α] : DecidableEq (Except ε α) :=
  fun a b =>
    match a, b with
    | .ok x, .ok y =>
      if h : x = y then .isTrue (congrArg Except.ok h)
      else .isFalse (fun hh => h (Except.ok.inj hh))
    | .error x, .error y =>
      if h : x = y then .isTrue (congrArg Except.error h)
      else .isFalse (fun hh => h (Except.error.inj hh))
    | .ok _, .error _ => .isFalse (fun hh => Except.noConfusion hh)
    | .error _, .ok _ => .isFalse (fun hh => Except.noConfusion hh)

/-- Keys accepted by the `getValue` dispatch, in switch order. -/
def gettableKeys : List String :=
  ["agent.name", "agent.id", "agent.erc8004_id", "wallet.address",
   "wallet.daily_limit", "wallet.alert_threshold", "security.firewall_enabled",
   "security.honeypot_enabled", "monitoring.dashboard_port"]

/-- Keys accepted by the `setValue` dispatch, in switch order. -/
def settableKeys : List String :=
  ["api_keys.etherscan", "api_keys.basescan", "api_keys.openai",
   "api_keys.anthropic", "api_keys.discord", "wallet.daily_limit",
   "wallet.alert_threshold", "monitoring.webhook_url", "monitoring.check_interval"]

/-- Document violating all five validation rules, used as a witness
input. -/
def allBadConfig : AgentConfig :=
  { defaultConfig with
    wallet := { defaultConfig.wallet with address := "", dailyLimit := 0 },
    security := { defaultConfig.security with firewallEnabled := false, honeypotEnabled := false } }

/-- Document satisfying all five validation rules, used as a witness
input. -/
def okConfig : AgentConfig :=
  { defaultConfig with
    wallet := { defaultConfig.wallet with dailyLimit := 1 },
    apiKeys := { defaultConfig.apiKeys with etherscan := "E1", basescan := "B1" } }


lemma decodeStrs_map_str (l : List String) : decodeStrs (l.map Json.str) = some l := by
  induction l with
  | nil => rfl
  | cons s rest ih => simp [decodeStrs, ih]

lemma unmarshalAgent_agentJson (a : AgentInfo) : unmarshalAgent (agentJson a) = some a := by
  cases a
  simp [agentJson, unmarshalAgent, getStrD, getIntD, List.lookup]

lemma unmarshalWallet_walletJson (w : WalletConfig) :
    unmarshalWallet (walletJson w) = some w := by
  cases w
  simp [walletJson, unmarshalWallet, getStrD, getNumD, getStrsD, List.lookup,
    decodeStrs_map_str]

lemma unmarshalSecurity_securityJson (s : SecurityConfig) :
    unmarshalSecurity (securityJson s) = some s := by
  cases s
  simp [securityJson, unmarshalSecurity, getBoolD, getStrsD, List.lookup,
    decodeStrs_map_str]

lemma unmarshalAPIKeys_apiKeysJson (k : APIKeysConfig) :
    unmarshalAPIKeys (apiKeysJson k) = some k := by
  cases k with
  | mk e b oa an d =>
    by_cases h1 : e = "" <;> by_cases h2 : b = "" <;> by_cases h3 : oa = "" <;>
      by_cases h4 : an = "" <;> by_cases h5 : d = "" <;>
      simp [apiKeysJson, optStrField, unmarshalAPIKeys, getStrD, List.lookup,
        h1, h2, h3, h4, h5]

lemma unmarshalMonitoring_monitoringJson (m : MonitoringConfig) :
    unmarshalMonitoring (monitoringJson m) = some m := by
  cases m with
  | mk de dp wu ci =>
    by_cases h : wu = "" <;>
      simp [monitoringJson, optStrField, unmarshalMonitoring, getBoolD, getIntD,
        getStrD, List.lookup, h]

lemma unmarshal_marshal (config : AgentConfig) :
    unmarshalConfig (marshalConfig config) = some config := by
  cases config
  simp [marshalConfig, unmarshalConfig, getObjD, getStrD, List.lookup,
    unmarshalAgent_agentJson, unmarshalWallet_walletJson,
    unmarshalSecurity_securityJson, unmarshalAPIKeys_apiKeysJson,
    unmarshalMonitoring_monitoringJson]


lemma getValue_ok_iff (config : AgentConfig) (key : String) :
    (∃ r, getValue config key = .ok r) ↔ key ∈ gettableKeys := by
  simp only [getValue, gettableKeys]
  split_ifs <;> simp_all

lemma getValue_unknown (config : AgentConfig) (key : String) (h : key ∉ gettableKeys) :
    getValue config key = .error .unknownKey := by
  simp only [getValue, gettableKeys] at *
  split_ifs <;> simp_all

lemma setValue_ok_iff (config : AgentConfig) (key value : String) :
    (∃ c, setValue config key value = .ok c) ↔ key ∈ settableKeys := by
  simp only [setValue, settableKeys]
  split_ifs <;> simp_all

lemma setValue_unknown (config : AgentConfig) (key value : String)
    (h : key ∉ settableKeys) : setValue config key value = .error .unknownKey := by
  simp only [setValue, settableKeys] at *
  split_ifs <;> simp_all

/-- C9: the default document built by `init` when no file exists has
version "0.1.0", the fixed placeholder agent identity and wallet address,
networks ["ethereum","base"], daily limit 0.5, alert threshold 0.1, all
four security flags on with both address lists empty, all five API keys
empty, and monitoring with the dashboard enabled on port 8080, check
interval 5 and no webhook URL. -/
theorem defaultConfig_spec :
    defaultConfig.version = "0.1.0" ∧
    defaultConfig.agent =
      ⟨"Arithmos", "arithmos-quillsworth", 1941, "https://arithmos.dev",
        "https://github.com/arithmosquillsworth"⟩ ∧
    defaultConfig.wallet.address = "0x120e011fB8a12bfcB61e5c1d751C26A5D33Aae91" ∧
    defaultConfig.wallet.networks = ["ethereum", "base"] ∧
    defaultConfig.wallet.dailyLimit = 0.5 ∧
    defaultConfig.wallet.alertThreshold = 0.1 ∧
    defaultConfig.security = ⟨true, true, true, true, [], []⟩ ∧
    defaultConfig.apiKeys = ⟨"", "", "", "", ""⟩ ∧
    defaultConfig.monitoring = ⟨true, 8080, "", 5⟩ :=
  ⟨rfl, rfl, rfl, rfl, by norm_num [defaultConfig], by norm_num [defaultConfig],
   rfl, rfl, rfl⟩

/-- C1: the dotted-key dispatch tables are closed and asymmetric.
`getValue` succeeds exactly on the nine gettable keys and `setValue`
succeeds exactly on the nine settable keys; every other key string
(including schema fields outside the respective table, such as
`wallet.networks` for get and `wallet.address` for set) yields
`UnknownKey`. -/
theorem getValue_setValue_keySets (config : AgentConfig) (key value : String) :
    ((∃ r, getValue config key = .ok r) ↔ key ∈ gettableKeys) ∧
    ((∃ c, setValue config key value = .ok c) ↔ key ∈ settableKeys) ∧
    (key ∉ gettableKeys → getValue config key = .error .unknownKey) ∧
    (key ∉ settableKeys → setValue config key value = .error .unknownKey) :=
  ⟨getValue_ok_iff config key, setValue_ok_iff config key value,
   getValue_unknown config key, setValue_unknown config key value⟩

/-- Witness for C1 at the spec's own asymmetry examples:
`get wallet.networks` and `set wallet.address` both fail with
`UnknownKey`. -/
theorem getValue_setValue_keySets_witness :
    getValue defaultConfig "wallet.networks" = .error .unknownKey ∧
    setValue defaultConfig "wallet.address" "0x1" = .error .unknownKey :=
  ⟨(getValue_setValue_keySets defaultConfig "wallet.networks" "0x1").2.2.1 (by decide),
   (getValue_setValue_keySets defaultConfig "wallet.address" "0x1").2.2.2 (by decide)⟩

/-- C7: a successful `set` mutates only the field its key addresses:
after clearing that one field, the mutated and the original document are
identical, so every other field of every section is unchanged. -/
theorem setValue_frame (config : AgentConfig) (key value : String) (c' : AgentConfig)
    (h : setValue config key value = .ok c') :
    clearSetField key c' = clearSetField key config := by
  simp only [setValue] at h
  split_ifs at h <;> injection h with h2 <;> subst h2 <;> simp_all [clearSetField]

/-- Witness for C7: setting the etherscan key on the default document
changes nothing outside that field. -/
theorem setValue_frame_witness :
    clearSetField "api_keys.etherscan"
      { defaultConfig with apiKeys := { defaultConfig.apiKeys with etherscan := "K" } } =
      clearSetField "api_keys.etherscan" defaultConfig :=
  setValue_frame defaultConfig "api_keys.etherscan" "K"
    { defaultConfig with apiKeys := { defaultConfig.apiKeys with etherscan := "K" } } rfl

lemma validateIssues_eq (config : AgentConfig) :
    validateIssues config =
      (if config.wallet.address = "" then ["❌ Wallet address not set"] else []) ++
      (if config.wallet.dailyLimit ≤ 0 then ["⚠️  Daily limit should be positive"] else []) ++
      (if config.apiKeys.etherscan = "" then
        ["⚠️  Etherscan API key not set (needed for monitoring)"] else []) ++
      (if config.apiKeys.basescan = "" then
        ["⚠️  Basescan API key not set (needed for monitoring)"] else []) ++
      (if !config.security.firewallEnabled && !config.security.honeypotEnabled then
        ["⚠️  All security features disabled"] else []) := by
  simp only [validateIssues]
  by_cases h1 : config.wallet.address = "" <;>
    by_cases h2 : config.wallet.dailyLimit ≤ 0 <;>
    by_cases h3 : config.apiKeys.etherscan = "" <;>
    by_cases h4 : config.apiKeys.basescan = "" <;>
    by_cases h5 : (!config.security.firewallEnabled && !config.security.honeypotEnabled) = true <;>
    simp [h1, h2, h3, h4, h5]

/-- C4: `validate` evaluates the five rules in fixed order, appending one
issue string per failed rule; a document failing all five reports exactly
the five issues in that order followed by the count, the issue list is
empty exactly when no rule fails, and an empty list reports valid. -/
theorem validateConfig_rules (config : AgentConfig) :
    validateIssues config =
      (if config.wallet.address = "" then ["❌ Wallet address not set"] else []) ++
      (if config.wallet.dailyLimit ≤ 0 then ["⚠️  Daily limit should be positive"] else []) ++
      (if config.apiKeys.etherscan = "" then
        ["⚠️  Etherscan API key not set (needed for monitoring)"] else []) ++
      (if config.apiKeys.basescan = "" then
        ["⚠️  Basescan API key not set (needed for monitoring)"] else []) ++
      (if !config.security.firewallEnabled && !config.security.honeypotEnabled then
        ["⚠️  All security features disabled"] else []) ∧
    (config.wallet.address = "" → config.wallet.dailyLimit ≤ 0 →
      config.apiKeys.etherscan = "" → config.apiKeys.basescan = "" →
      config.security.firewallEnabled = false → config.security.honeypotEnabled = false →
      validateIssues config =
        ["❌ Wallet address not set",
         "⚠️  Daily limit should be positive",
         "⚠️  Etherscan API key not set (needed for monitoring)",
         "⚠️  Basescan API key not set (needed for monitoring)",
         "⚠️  All security features disabled"] ∧
      validateResult config =
        ["❌ Wallet address not set",
         "⚠️  Daily limit should be positive",
         "⚠️  Etherscan API key not set (needed for monitoring)",
         "⚠️  Basescan API key not set (needed for monitoring)",
         "⚠️  All security features disabled",
         "Found 5 issue(s)"]) ∧
    (validateIssues config = [] → validateResult config = ["✅ Configuration is valid!"]) ∧
    (validateIssues config = [] ↔
      config.wallet.address ≠ "" ∧ ¬config.wallet.dailyLimit ≤ 0 ∧
      config.apiKeys.etherscan ≠ "" ∧ config.apiKeys.basescan ≠ "" ∧
      ¬(config.security.firewallEnabled = false ∧ config.security.honeypotEnabled = false)) := by
  refine ⟨validateIssues_eq config, ?_, ?_, ?_⟩
  · intro h1 h2 h3 h4 h5 h6
    have hi : validateIssues config =
        ["❌ Wallet address not set",
         "⚠️  Daily limit should be positive",
         "⚠️  Etherscan API key not set (needed for monitoring)",
         "⚠️  Basescan API key not set (needed for monitoring)",
         "⚠️  All security features disabled"] := by
      rw [validateIssues_eq]
      simp [h1, h2, h3, h4, h5, h6]
    refine ⟨hi, ?_⟩
    simp only [validateResult, hi]
    rfl
  · intro h
    simp [validateResult, h]
  · rw [validateIssues_eq]
    by_cases h1 : config.wallet.address = "" <;>
      by_cases h2 : config.wallet.dailyLimit ≤ 0 <;>
      by_cases h3 : config.apiKeys.etherscan = "" <;>
      by_cases h4 : config.apiKeys.basescan = "" <;>
      by_cases h5 : (!config.security.firewallEnabled && !config.security.honeypotEnabled) = true <;>
      simp_all

/-- Witness for C4: the all-failing document reports the five issues in
order; the all-passing document reports valid. -/
theorem validateConfig_rules_witness :
    validateIssues allBadConfig =
      ["❌ Wallet address not set",
       "⚠️  Daily limit should be positive",
       "⚠️  Etherscan API key not set (needed for monitoring)",
       "⚠️  Basescan API key not set (needed for monitoring)",
       "⚠️  All security features disabled"] ∧
    validateResult okConfig = ["✅ Configuration is valid!"] :=
  ⟨((validateConfig_rules allBadConfig).2.1 rfl (by decide) rfl rfl rfl rfl).1,
   (validateConfig_rules okConfig).2.2.1 (by decide)⟩

/-- C2: export derives exactly three subset documents — wallet-monitor
with exactly the six keys copied from wallet address, the two scan API
keys, the check interval, the alert threshold and the webhook URL;
reputation-scanner with exactly the three keys address, etherscan_key,
basescan_key; security-dashboard with exactly the port — with every value
copied verbatim from the source document for every document, so empty or
unset source fields pass through unvalidated as empty strings or zero
values. -/
theorem exportConfig_spec (config : AgentConfig) :
    (exportConfig config).map Prod.fst =
      ["wallet-monitor.json", "reputation-scanner.json", "security-dashboard.json"] ∧
    (exportConfig config).lookup "wallet-monitor.json" = some (walletMonitorExport config) ∧
    (exportConfig config).lookup "reputation-scanner.json" =
      some (reputationScannerExport config) ∧
    (exportConfig config).lookup "security-dashboard.json" =
      some (securityDashboardExport config) ∧
    (walletMonitorExport config).map Prod.fst =
      ["address", "etherscan_key", "basescan_key", "check_interval",
       "alert_threshold", "webhook_url"] ∧
    (walletMonitorExport config).lookup "address" = some (.str config.wallet.address) ∧
    (walletMonitorExport config).lookup "etherscan_key" = some (.str config.apiKeys.etherscan) ∧
    (walletMonitorExport config).lookup "basescan_key" = some (.str config.apiKeys.basescan) ∧
    (walletMonitorExport config).lookup "check_interval" =
      some (.int config.monitoring.checkInterval) ∧
    (walletMonitorExport config).lookup "alert_threshold" =
      some (.float config.wallet.alertThreshold) ∧
    (walletMonitorExport config).lookup "webhook_url" =
      some (.str config.monitoring.webhookURL) ∧
    (reputationScannerExport config).map Prod.fst =
      ["address", "etherscan_key", "basescan_key"] ∧
    (reputationScannerExport config).lookup "address" = some (.str config.wallet.address) ∧
    (reputationScannerExport config).lookup "etherscan_key" =
      some (.str config.apiKeys.etherscan) ∧
    (reputationScannerExport config).lookup "basescan_key" =
      some (.str config.apiKeys.basescan) ∧
    (securityDashboardExport config).map Prod.fst = ["port"] ∧
    (securityDashboardExport config).lookup "port" =
      some (.int config.monitoring.dashboardPort) :=
  ⟨rfl, rfl, rfl, rfl, rfl, rfl, rfl, rfl, rfl, rfl, rfl, rfl, rfl, rfl, rfl, rfl, rfl⟩

lemma apiKeysJson_lookup (k : APIKeysConfig) :
    ((apiKeysJson k).lookup "etherscan" =
      if k.etherscan = "" then none else some (.str k.etherscan)) ∧
    ((apiKeysJson k).lookup "basescan" =
      if k.basescan = "" then none else some (.str k.basescan)) ∧
    ((apiKeysJson k).lookup "openai" =
      if k.openAI = "" then none else some (.str k.openAI)) ∧
    ((apiKeysJson k).lookup "anthropic" =
      if k.anthropic = "" then none else some (.str k.anthropic)) ∧
    ((apiKeysJson k).lookup "discord" =
      if k.discord = "" then none else some (.str k.discord)) := by
  by_cases h1 : k.etherscan = "" <;> by_cases h2 : k.basescan = "" <;>
    by_cases h3 : k.openAI = "" <;> by_cases h4 : k.anthropic = "" <;>
    by_cases h5 : k.discord = "" <;>
    simp [apiKeysJson, optStrField, List.lookup, h1, h2, h3, h4, h5]

lemma monitoringJson_lookup_webhook (m : MonitoringConfig) :
    (monitoringJson m).lookup "webhook_url" =
      if m.webhookURL = "" then none else some (.str m.webhookURL) := by
  by_cases h : m.webhookURL = "" <;>
    simp [monitoringJson, optStrField, List.lookup, h]

/-- C5: `save` then `load` yields the original document field-for-field
for every document; the six empty-able optional string fields (the five
API keys and the webhook URL) are omitted from the serialized object
exactly when empty and read back as the empty string, so a document whose
unset optional fields are empty strings round-trips to an equal
document. -/
theorem saveConfig_loadConfig_roundtrip (config : AgentConfig) (file : Option Json) :
    loadConfig (saveConfig config file) = .ok config ∧
    unmarshalConfig (marshalConfig config) = some config ∧
    ((apiKeysJson config.apiKeys).lookup "etherscan" =
      if config.apiKeys.etherscan = "" then none else some (.str config.apiKeys.etherscan)) ∧
    ((apiKeysJson config.apiKeys).lookup "basescan" =
      if config.apiKeys.basescan = "" then none else some (.str config.apiKeys.basescan)) ∧
    ((apiKeysJson config.apiKeys).lookup "openai" =
      if config.apiKeys.openAI = "" then none else some (.str config.apiKeys.openAI)) ∧
    ((apiKeysJson config.apiKeys).lookup "anthropic" =
      if config.apiKeys.anthropic = "" then none else some (.str config.apiKeys.anthropic)) ∧
    ((apiKeysJson config.apiKeys).lookup "discord" =
      if config.apiKeys.discord = "" then none else some (.str config.apiKeys.discord)) ∧
    ((monitoringJson config.monitoring).lookup "webhook_url" =
      if config.monitoring.webhookURL = "" then none
      else some (.str config.monitoring.webhookURL)) :=
  ⟨by simp [loadConfig, saveConfig, unmarshal_marshal],
   unmarshal_marshal config,
   (apiKeysJson_lookup config.apiKeys).1,
   (apiKeysJson_lookup config.apiKeys).2.1,
   (apiKeysJson_lookup config.apiKeys).2.2.1,
   (apiKeysJson_lookup config.apiKeys).2.2.2.1,
   (apiKeysJson_lookup config.apiKeys).2.2.2.2,
   monitoringJson_lookup_webhook config.monitoring⟩

/-- C6: `init` is idempotent on the stored document: an existing file is
reported as already existing and left untouched, so a second `init` never
overwrites the first one's document and leaves the state fixed. -/
theorem initConfig_idempotent (file : Option Json) :
    (∀ j, file = some j → initConfig file = (some j, .alreadyExists)) ∧
    initConfig (initConfig file).1 = ((initConfig file).1, .alreadyExists) ∧
    (initConfig (initConfig file).1).1 = (initConfig file).1 := by
  cases file <;> simp [initConfig, saveConfig]

/-- Witness for C6: `init` on a state whose file holds the default
document reports already-exists and leaves the file unchanged. -/
theorem initConfig_idempotent_witness :
    initConfig (some (marshalConfig defaultConfig)) =
      (some (marshalConfig defaultConfig), .alreadyExists) :=
  (initConfig_idempotent (some (marshalConfig defaultConfig))).1
    (marshalConfig defaultConfig) rfl

/-- C8: `validate` never writes the stored config file back, whatever the
state, and on every loadable document the invocation exits with status 0
regardless of how many issues it prints. -/
theorem runValidate_frame (file : Option Json) (config : AgentConfig) :
    (runValidate file).1 = file ∧
    runValidate (some (marshalConfig config)) =
      (some (marshalConfig config), 0, validateResult config) := by
  constructor
  · cases h : loadConfig file <;> simp [runValidate, h]
  · simp [runValidate, loadConfig, unmarshal_marshal]
